import Mathlib

/-!
Shallow embedding of a portfolio web site's content-access layer, media
classification and rendering, and slideshow/overlay UI state, translated
from the TypeScript source for verification.

Conventions: optional/undefined JS fields become Option; JS truthiness of
an optional string (undefined and the empty string are falsy) is strTruthy;
the JS remainder operator on integers is Int.tmod (truncated remainder);
fallible fetches take their outcome as an explicit Except argument.
-/

namespace Site

/-- JS truthiness of an optional string: undefined and the empty string are falsy. -/
def strTruthy : Option String → Bool
  | none => false
  | some s => !s.isEmpty

/-- Reference to a Sanity image asset (the fields the code reads). -/
structure ImageAsset where
  ref : Option String
  deriving DecidableEq

/-- Asset object of an uploaded video file: url and ref as read by getVideoSource. -/
structure VideoAsset where
  ref : Option String
  url : Option String
  deriving DecidableEq

/-- The videoFile wrapper around an optional video asset. -/
structure VideoFile where
  asset : Option VideoAsset
  deriving DecidableEq

/-- Poster image attached to a video item. -/
structure Poster where
  asset : Option ImageAsset
  alt : Option String
  deriving DecidableEq

/-- A media item as the runtime object seen by OptimizedMedia and isVideo:
the TS type is a union of an image shape and a video shape, but the code
inspects fields dynamically, so the embedding flattens both shapes into one
record of optional fields. tag models the JS field holding the type name. -/
structure MediaItem where
  tag : Option String
  asset : Option ImageAsset
  alt : Option String
  videoType : Option String
  muxPlaybackId : Option String
  videoFile : Option VideoFile
  poster : Option Poster
  autoplay : Option Bool
  loop : Option Bool
  muted : Option Bool
  controls : Option Bool
  startVisible : Option Bool
  deriving DecidableEq

/-- A media item with every optional field absent. -/
def blankMedia : MediaItem :=
  { tag := none, asset := none, alt := none, videoType := none,
    muxPlaybackId := none, videoFile := none, poster := none,
    autoplay := none, loop := none, muted := none, controls := none,
    startVisible := none }

/-- EmblaCarousel.tsx isVideo: type tag "video", or videoType "mux" with a
truthy playback id, or videoType "file" with a present videoFile.asset. -/
def isVideo (m : MediaItem) : Bool :=
  if m.tag = some "video" then true
  else if m.videoType = some "mux" ∧ strTruthy m.muxPlaybackId = true then true
  else if m.videoType = some "file" ∧ (m.videoFile.bind VideoFile.asset).isSome then true
  else false

/-- Environment configuration read by getVideoSource: the Sanity project id
and dataset variables, each possibly undefined. -/
structure SanityEnv where
  projectId : Option String
  dataset : Option String
  deriving DecidableEq

/-- Split a character list at the first occurrence of a separator; none when
the separator does not occur. -/
def splitAtFirst (c : Char) : List Char → Option (List Char × List Char)
  | [] => none
  | x :: xs =>
    if x = c then some ([], xs)
    else
      match splitAtFirst c xs with
      | none => none
      | some (a, b) => some (x :: a, b)

/-- Model of the regex match on a file ref (prefix "file-", then a nonempty
dash-free file id up to the first dash, then a nonempty dot-free segment up
to the first dot, then a nonempty extension). Returns the three groups. -/
def matchFileRef (s : String) : Option (String × String × String) :=
  if s.startsWith "file-" then
    match splitAtFirst '-' (s.drop 5).toList with
    | none => none
    | some (g1, rest) =>
      if g1.isEmpty then none
      else
        match splitAtFirst '.' rest with
        | none => none
        | some (g2, g3) =>
          if g2.isEmpty ∨ g3.isEmpty then none
          else some (String.mk g1, String.mk g2, String.mk g3)
  else none

/-- EmblaCarousel.tsx getVideoSource: for videoType "mux" with a truthy
playback id return the id; for videoType "file" return the asset url when
truthy, else construct a CDN url from a parsed file ref when the project id
is configured; otherwise null. -/
def getVideoSource (env : SanityEnv) (m : MediaItem) : Option String :=
  if m.videoType = some "mux" ∧ strTruthy m.muxPlaybackId = true then m.muxPlaybackId
  else if m.videoType = some "file" then
    match m.videoFile.bind VideoFile.asset with
    | none => none
    | some a =>
      if strTruthy a.url then a.url
      else if strTruthy a.ref then
        match matchFileRef (a.ref.getD "") with
        | some (fileId, _, ext) =>
          if strTruthy env.projectId then
            let dataset := if strTruthy env.dataset then env.dataset.getD "" else "production"
            some ("https://cdn.sanity.io/files/" ++ env.projectId.getD "" ++ "/" ++
              dataset ++ "/" ++ fileId ++ "." ++ ext)
          else none
        | none => none
      else none
  else none

/-- showControls in OptimizedMedia: the controls field when set, true otherwise. -/
def showControls (m : MediaItem) : Bool :=
  if isVideo m then (match m.controls with | some b => b | none => true) else true

/-- shouldAutoplay in OptimizedMedia: the autoplay field when set, false otherwise. -/
def shouldAutoplay (m : MediaItem) : Bool :=
  if isVideo m then (match m.autoplay with | some b => b | none => false) else false

/-- shouldLoop in OptimizedMedia: the loop field when set, false otherwise. -/
def shouldLoop (m : MediaItem) : Bool :=
  if isVideo m then (match m.loop with | some b => b | none => false) else false

/-- shouldMute in OptimizedMedia: the muted field when set, true otherwise. -/
def shouldMute (m : MediaItem) : Bool :=
  if isVideo m then (match m.muted with | some b => b | none => true) else true

/-- altText in OptimizedMedia: alt prop, else the media alt field, else empty. -/
def altTextOf (altArg : Option String) (m : MediaItem) : String :=
  if strTruthy altArg then altArg.getD ""
  else if strTruthy m.alt then m.alt.getD ""
  else ""

/-- Render outcome of OptimizedMedia: null, the optimized-image path, or the
video-player path with its resolved source and effective playback props. -/
inductive RenderResult where
  | nothing
  | image (altText : String)
  | video (source : String) (autoplay loopFlag muted controls : Bool)
  deriving DecidableEq

/-- Observer on render outcomes: true exactly on the video-player path. -/
def RenderResult.isVideoRender : RenderResult → Bool
  | .video _ _ _ _ _ => true
  | _ => false

/-- OptimizedMedia's render: non-video items render the image path when an
asset is present and null otherwise; video items render the player with the
resolved source and effective flags (autoplay gated on isInView), and null
when no source resolves. -/
def renderOptimizedMedia (env : SanityEnv) (isInView : Bool)
    (altArg : Option String) (m : MediaItem) : RenderResult :=
  if isVideo m = false then
    match m.asset with
    | none => RenderResult.nothing
    | some _ => RenderResult.image (altTextOf altArg m)
  else
    match getVideoSource env m with
    | none => RenderResult.nothing
    | some src =>
      RenderResult.video src (shouldAutoplay m && isInView) (shouldLoop m)
        (shouldMute m) (showControls m)

/-- ProjectsGrid toMediaItem: null stays null; an item with an asset passes
through unchanged; otherwise videoType "mux" with a truthy playback id or
videoType "file" with a present asset is tagged as video; else null. -/
def toMediaItem (item : Option MediaItem) : Option MediaItem :=
  match item with
  | none => none
  | some it =>
    if it.asset.isSome then some it
    else if it.videoType = some "mux" ∧ strTruthy it.muxPlaybackId = true then
      some { it with tag := some "video" }
    else if it.videoType = some "file" ∧ (it.videoFile.bind VideoFile.asset).isSome then
      some { it with tag := some "video" }
    else none

/-- One child of a rich-text block: an optional type name and optional text. -/
structure SpanChild where
  tag : Option String
  text : Option String
  deriving DecidableEq

/-- A rich-text block as read by the title extraction: optional children. -/
structure Block where
  children : Option (List SpanChild)
  deriving DecidableEq

/-- A title value at runtime: a plain string, an array of (possibly null)
blocks, or any other value (undefined, object, ...). -/
inductive TitleValue where
  | str (s : String)
  | blocks (bs : List (Option Block))
  | absent
  deriving DecidableEq

/-- titleToPlainText (and the identical projectTitleToPlainText): a string
passes through; a non-array yields empty; an array maps each block to the
joined text of its span children (empty for a null block or missing
children), joins the blocks with newlines and trims the result. -/
def titleToPlainText : TitleValue → String
  | .str s => s
  | .absent => ""
  | .blocks bs =>
    (String.intercalate "\n" (bs.map (fun ob =>
      match ob with
      | none => ""
      | some b =>
        match b.children with
        | none => ""
        | some cs =>
          String.join ((cs.filter (fun c => c.tag == some "span")).map
            (fun c => c.text.getD ""))))).trim

/-- Spec reading of one block's plain text: the concatenation, in order, of
the text of the children whose type is span. -/
def blockSpanConcat (ob : Option Block) : String :=
  String.join ((((ob.bind Block.children).getD []).filter
    (fun c => c.tag == some "span")).map (fun c => c.text.getD ""))

/-- A project document: id, title (blocks or legacy string), slug, display
order, and the slideshow media sequence. -/
structure Project where
  id : String
  title : TitleValue
  slug : Option String
  order : Option Int
  slideshowImages : Option (List MediaItem)
  deriving DecidableEq

/-- One flattened grid entry: the owning project, the media item, its index
within the project, and the project's media count. -/
structure ProjectImage where
  project : Project
  image : MediaItem
  imageIndex : Nat
  totalImages : Nat
  deriving DecidableEq

/-- ProjectsGrid flattenProjectImages: concatenate each project's slideshow
items (empty when absent), recording per-project index and total. -/
def flattenProjectImages (projects : List Project) : List ProjectImage :=
  projects.flatMap (fun p =>
    let images := p.slideshowImages.getD []
    images.mapIdx (fun i img =>
      { project := p, image := img, imageIndex := i, totalImages := images.length }))

/-- ProjectsGrid getInitialVisibleIndices: the set of indices of items whose
image has a truthy startVisible flag. -/
def getInitialVisibleIndices (items : List ProjectImage) : Finset Nat :=
  (((items.enum).filter (fun p => p.2.image.startVisible == some true)).map
    (fun p => p.1)).toFinset

/-- ProjectsGrid toggleCell: copy the set, then delete the index when present
and add it otherwise. -/
def toggleCell (s : Finset Nat) (i : Nat) : Finset Nat :=
  if i ∈ s then s.erase i else insert i s

/-- One slide of MediaSlideshow: optional media plus alt text. -/
structure MediaSlideshowItem where
  media : Option MediaItem
  alt : String
  deriving DecidableEq

/-- MediaSlideshow's null guard: the slideshow renders its slide (and its
prev/next areas) only when the current item exists and has media. -/
def mediaSlideshowVisible (items : List MediaSlideshowItem) (currentIndex : Nat) : Bool :=
  match items.get? currentIndex with
  | none => false
  | some it => it.media.isSome

/-- ProjectsGrid projectToMediaSlideshowItems: map each slideshow image to a
slide via toMediaItem, alt falling back to the plain project title. -/
def projectToMediaSlideshowItems (p : Option Project) : List MediaSlideshowItem :=
  match p with
  | none => []
  | some proj =>
    let titlePlain := titleToPlainText proj.title
    (proj.slideshowImages.getD []).map (fun img =>
      { media := toMediaItem (some img),
        alt := match img.alt with | some a => a | none => titlePlain })

/-- Direction of the last slideshow navigation. -/
inductive NavDirection where
  | left
  | right
  deriving DecidableEq

/-- Overlay descriptor held by ProjectsPageClient while a project is open. -/
structure OverlayInfo where
  projectId : String
  startIndex : Nat
  projectTitle : String
  totalSlides : Nat
  deriving DecidableEq

/-- ProjectsPageClient state: the overlay (null when closed), the overlay
slide index, and the direction-flash bookkeeping. -/
structure ProjectsPageState where
  overlay : Option OverlayInfo
  overlaySlideIndex : Nat
  lastDirection : Option NavDirection
  directionChangeKey : Nat
  deriving DecidableEq

/-- ProjectsPageClient openOverlay: set the overlay descriptor and move the
overlay slide index to the start index. -/
def openOverlay (st : ProjectsPageState) (projectId : String) (startIndex : Nat)
    (projectTitle : String) (totalSlides : Nat) : ProjectsPageState :=
  { st with
    overlay := some { projectId := projectId, startIndex := startIndex,
                      projectTitle := projectTitle, totalSlides := totalSlides },
    overlaySlideIndex := startIndex }

/-- ProjectsPageClient closeOverlay: clear the overlay descriptor. -/
def closeOverlay (st : ProjectsPageState) : ProjectsPageState :=
  { st with overlay := none }

/-- Circular step to the next slide, as in HomePageContent goNext and the
overlay onNext: (i + 1) % n with the JS remainder (Int.tmod). -/
def goNext (n i : Int) : Int := Int.tmod (i + 1) n

/-- Circular step to the previous slide, as in HomePageContent goPrev and the
overlay onPrev: (i - 1 + n) % n with the JS remainder (Int.tmod). -/
def goPrev (n i : Int) : Int := Int.tmod (i - 1 + n) n

/-- One homepage slideshow item: title, optional image, optional video. -/
structure HomepageSlideshowItem where
  title : Option String
  image : Option MediaItem
  video : Option MediaItem
  deriving DecidableEq

/-- Home page render guard (page.tsx): HomePageContent is mounted with the
fetched items exactly when the items list is non-empty. -/
def homeRender (items : List HomepageSlideshowItem) :
    Option (List HomepageSlideshowItem) :=
  if items.length > 0 then some items else none

/-- ProjectsGrid overlay render guard: the overlay slideshow (whose prev/next
handlers step with modulus overlayMediaItems.length) is rendered only when an
overlay is set and the overlay media item list is non-empty. -/
def overlayControlsRendered (overlay : Option OverlayInfo)
    (overlayMediaItems : List MediaSlideshowItem) : Bool :=
  overlay.isSome && decide (overlayMediaItems.length > 0)

/-- Global settings document (fields the accessor returns). -/
structure GlobalSettings where
  id : String
  siteTitle : Option String
  siteDescription : Option String
  deriving DecidableEq

/-- Homepage document: slideshow items only. -/
structure Homepage where
  id : String
  items : Option (List HomepageSlideshowItem)
  deriving DecidableEq

/-- Static page document (fields the accessor returns). -/
structure Page where
  id : String
  title : Option String
  slug : Option String
  description : Option String
  deriving DecidableEq

/-- Post document (fields the accessor returns). -/
structure Post where
  id : String
  title : Option String
  slug : Option String
  description : Option String
  publishedAt : Option String
  deriving DecidableEq

/-- getGlobalSettings: one fixed singleton query in a try/catch; the fetch
outcome is the explicit Except argument (ok carries the document or null,
error carries the thrown message); a caught error yields null. -/
def getGlobalSettings (fetched : Except String (Option GlobalSettings)) :
    Option GlobalSettings :=
  match fetched with
  | .ok v => v
  | .error _ => none

/-- getHomepage: singleton query in a try/catch; a caught error yields null. -/
def getHomepage (fetched : Except String (Option Homepage)) : Option Homepage :=
  match fetched with
  | .ok v => v
  | .error _ => none

/-- getProjects: list query in a try/catch; a caught error yields the empty list. -/
def getProjects (fetched : Except String (List Project)) : List Project :=
  match fetched with
  | .ok v => v
  | .error _ => []

/-- getProjectBySlug: parameterized singleton query in a try/catch; a caught
error yields null. -/
def getProjectBySlug (slug : String) (fetched : Except String (Option Project)) :
    Option Project :=
  match fetched with
  | .ok v => v
  | .error _ => none

/-- getPageBySlug: parameterized singleton query in a try/catch; a caught
error yields null. -/
def getPageBySlug (slug : String) (fetched : Except String (Option Page)) :
    Option Page :=
  match fetched with
  | .ok v => v
  | .error _ => none

/-- getAllPosts: list query in a try/catch; a caught error yields the empty list. -/
def getAllPosts (fetched : Except String (List Post)) : List Post :=
  match fetched with
  | .ok v => v
  | .error _ => []

/-- getPostBySlug: parameterized singleton query in a try/catch; a caught
error yields null. -/
def getPostBySlug (slug : String) (fetched : Except String (Option Post)) :
    Option Post :=
  match fetched with
  | .ok v => v
  | .error _ => none

/-- An environment with neither project id nor dataset configured. -/
def noEnv : SanityEnv := { projectId := none, dataset := none }

/-- A video-tagged mux item with no playback id. -/
def muxNoIdItem : MediaItem :=
  { blankMedia with tag := some "video", videoType := some "mux" }

/-- A video-tagged file item with no file asset, so no source resolves. -/
def fileNoSourceItem : MediaItem :=
  { blankMedia with tag := some "video", videoType := some "file" }

/-- A video item with autoplay set, muted set, loop and controls unset. -/
def videoFlagsItem : MediaItem :=
  { blankMedia with tag := some "video", autoplay := some true, muted := some false }

/-- A homepage slideshow item with all fields absent. -/
def blankHomeItem : HomepageSlideshowItem := { title := none, image := none, video := none }

/-- A slideshow slide with no media. -/
def blankSlide : MediaSlideshowItem := { media := none, alt := "" }

/-- A sample overlay descriptor. -/
def sampleOverlayInfo : OverlayInfo :=
  { projectId := "p1", startIndex := 0, projectTitle := "T", totalSlides := 1 }

/-- The projects page state with the overlay closed. -/
def sampleClosedState : ProjectsPageState :=
  { overlay := none, overlaySlideIndex := 0, lastDirection := none, directionChangeKey := 0 }

/-- A projects page state with the overlay open. -/
def sampleOpenState : ProjectsPageState :=
  { overlay := some sampleOverlayInfo, overlaySlideIndex := 0,
    lastDirection := none, directionChangeKey := 0 }

theorem goNext_bounds (n i : Int) (hn : 1 ≤ n) (h0 : 0 ≤ i) :
    0 ≤ goNext n i ∧ goNext n i < n := by
  unfold goNext
  rw [Int.tmod_eq_emod (by omega) (by omega)]
  exact ⟨Int.emod_nonneg _ (by omega), Int.emod_lt_of_pos _ (by omega)⟩

theorem goPrev_bounds (n i : Int) (hn : 1 ≤ n) (h0 : 0 ≤ i) :
    0 ≤ goPrev n i ∧ goPrev n i < n := by
  unfold goPrev
  rw [Int.tmod_eq_emod (by omega) (by omega)]
  exact ⟨Int.emod_nonneg _ (by omega), Int.emod_lt_of_pos _ (by omega)⟩

theorem mem_enum_iff_get {α : Type _} {l : List α} {i : Nat} {a : α} :
    (i, a) ∈ l.enum ↔ l.get? i = some a := by
  constructor
  · intro h
    obtain ⟨hlt, ha⟩ := List.mem_enum h
    simp [List.get?_eq_getElem?, hlt, ha]
  · intro h
    have h2 : l.enum.get? i = some (i, a) := by
      rw [List.get?_enum, h]; rfl
    exact List.get?_mem h2

/-- Claim C1: every content fetch function swallows a fetch error and returns
the documented fallback — the empty list for the list queries (getProjects,
getAllPosts) and null for the singleton queries (getGlobalSettings,
getHomepage, getProjectBySlug, getPageBySlug, getPostBySlug); being total
functions into plain result types, they propagate no exception. -/
theorem fetch_error_fallbacks (e slug : String) :
    getGlobalSettings (Except.error e) = none ∧
    getHomepage (Except.error e) = none ∧
    getProjects (Except.error e) = [] ∧
    getProjectBySlug slug (Except.error e) = none ∧
    getPageBySlug slug (Except.error e) = none ∧
    getAllPosts (Except.error e) = [] ∧
    getPostBySlug slug (Except.error e) = none :=
  ⟨rfl, rfl, rfl, rfl, rfl, rfl, rfl⟩

/-- Claim C2: for a media sequence of length n at least 1 and a current index
i in 0..n-1, the slideshow step handlers move the index to (i+1) mod n on
next and (i-1+n) mod n on prev; in particular next from the last index gives
0 and prev from index 0 gives the last index. -/
theorem stepping_circular (n i : Int) (hn : 1 ≤ n) (h0 : 0 ≤ i) (hi : i < n) :
    goNext n i = (i + 1) % n ∧ goPrev n i = (i - 1 + n) % n ∧
    goNext n (n - 1) = 0 ∧ goPrev n 0 = n - 1 := by
  unfold goNext goPrev
  rw [Int.tmod_eq_emod (by omega) (by omega), Int.tmod_eq_emod (by omega) (by omega),
    Int.tmod_eq_emod (by omega) (by omega), Int.tmod_eq_emod (by omega) (by omega)]
  have e1 : n - 1 + 1 = n := by omega
  have e2 : (0 : Int) - 1 + n = n - 1 := by omega
  refine ⟨rfl, rfl, ?_, ?_⟩
  · rw [e1, Int.emod_self]
  · rw [e2, Int.emod_eq_of_lt (by omega) (by omega)]

/-- Witness for C2 at n = 3, i = 1. -/
theorem stepping_circular_witness :
    goNext 3 1 = (1 + 1) % 3 ∧ goPrev 3 1 = (1 - 1 + 3) % 3 ∧
    goNext 3 (3 - 1) = 0 ∧ goPrev 3 0 = 3 - 1 :=
  stepping_circular 3 1 (by decide) (by decide) (by decide)

/-- Claim C3: a media item whose videoType is mux with an empty or absent
playback id is never classified as playable video: the renderer never takes
the video-player path for it, and toMediaItem never tags it as video (it
returns null or passes an image item through unchanged). -/
theorem mux_empty_id_never_video (env : SanityEnv) (inView : Bool)
    (altArg : Option String) (m : MediaItem)
    (hmux : m.videoType = some "mux") (hid : strTruthy m.muxPlaybackId = false) :
    (renderOptimizedMedia env inView altArg m).isVideoRender = false ∧
    (toMediaItem (some m) = none ∨ toMediaItem (some m) = some m) := by
  have hsrc : getVideoSource env m = none := by
    simp [getVideoSource, hmux, hid]
  constructor
  · by_cases hv : isVideo m = false
    · unfold renderOptimizedMedia
      rw [if_pos hv]
      cases m.asset <;> simp [RenderResult.isVideoRender]
    · unfold renderOptimizedMedia
      rw [if_neg hv, hsrc]
      rfl
  · cases ha : m.asset with
    | some a => right; simp [toMediaItem, ha]
    | none => left; simp [toMediaItem, ha, hmux, hid]

/-- Witness for C3: a video-tagged mux item with no playback id. -/
theorem mux_empty_id_never_video_witness :
    (renderOptimizedMedia noEnv true none muxNoIdItem).isVideoRender = false ∧
    (toMediaItem (some muxNoIdItem) = none ∨
      toMediaItem (some muxNoIdItem) = some muxNoIdItem) :=
  mux_empty_id_never_video noEnv true none muxNoIdItem rfl rfl

/-- Claim C4: the initially revealed index set over the flattened project
slideshow items contains exactly the indices whose item has startVisible
set truthy. -/
theorem initial_visible_exact (projects : List Project) (i : Nat) :
    i ∈ getInitialVisibleIndices (flattenProjectImages projects) ↔
      ∃ it, (flattenProjectImages projects).get? i = some it ∧
        it.image.startVisible = some true := by
  unfold getInitialVisibleIndices
  rw [List.mem_toFinset]
  constructor
  · intro h
    obtain ⟨⟨j, it⟩, hmem, hj⟩ := List.mem_map.mp h
    obtain ⟨hin, hfilt⟩ := List.mem_filter.mp hmem
    cases hj
    exact ⟨it, mem_enum_iff_get.mp hin, by simpa using hfilt⟩
  · rintro ⟨it, hget, hvis⟩
    exact List.mem_map.mpr ⟨(i, it),
      List.mem_filter.mpr ⟨mem_enum_iff_get.mpr hget, by simpa using hvis⟩, rfl⟩

/-- Claim C5: plain-text title extraction maps a plain string to itself, and a
block sequence to the per-block concatenation of its span children's text,
blocks joined by newlines and the result trimmed. -/
theorem title_plain_text_spec :
    (∀ s, titleToPlainText (TitleValue.str s) = s) ∧
    (∀ bs, titleToPlainText (TitleValue.blocks bs) =
      (String.intercalate "\n" (bs.map blockSpanConcat)).trim) := by
  refine ⟨fun s => rfl, fun bs => ?_⟩
  simp only [titleToPlainText]
  congr 2
  apply List.map_congr_left
  intro ob _
  cases ob with
  | none => rfl
  | some b => cases b with
    | mk children => cases children <;> rfl

/-- Claim C6: for a video item, each effective playback flag equals the item's
flag when set, and defaults to autoplay false, loop false, muted true,
controls true when unset. -/
theorem playback_flag_defaults (m : MediaItem) (h : isVideo m = true) :
    shouldAutoplay m = m.autoplay.getD false ∧
    shouldLoop m = m.loop.getD false ∧
    shouldMute m = m.muted.getD true ∧
    showControls m = m.controls.getD true := by
  refine ⟨?_, ?_, ?_, ?_⟩
  · cases ha : m.autoplay <;> simp [shouldAutoplay, h, ha]
  · cases hl : m.loop <;> simp [shouldLoop, h, hl]
  · cases hm : m.muted <;> simp [shouldMute, h, hm]
  · cases hc : m.controls <;> simp [showControls, h, hc]

/-- Witness for C6: a video item with autoplay and muted set, loop and
controls unset. -/
theorem playback_flag_defaults_witness :
    shouldAutoplay videoFlagsItem = videoFlagsItem.autoplay.getD false ∧
    shouldLoop videoFlagsItem = videoFlagsItem.loop.getD false ∧
    shouldMute videoFlagsItem = videoFlagsItem.muted.getD true ∧
    showControls videoFlagsItem = videoFlagsItem.controls.getD true :=
  playback_flag_defaults videoFlagsItem rfl

/-- Claim C7: malformed or missing media renders nothing rather than failing:
a non-video item without an asset and a video item without a resolvable
source both map to the null render, and the slideshow renders no slide when
the current item's media is null. -/
theorem malformed_media_renders_nothing (env : SanityEnv) (inView : Bool)
    (altArg : Option String) (m : MediaItem)
    (items : List MediaSlideshowItem) (idx : Nat) :
    (isVideo m = false → m.asset = none →
      renderOptimizedMedia env inView altArg m = RenderResult.nothing) ∧
    (isVideo m = true → getVideoSource env m = none →
      renderOptimizedMedia env inView altArg m = RenderResult.nothing) ∧
    (∀ it, items.get? idx = some it → it.media = none →
      mediaSlideshowVisible items idx = false) := by
  refine ⟨?_, ?_, ?_⟩
  · intro hv ha
    simp [renderOptimizedMedia, hv, ha]
  · intro hv hs
    simp [renderOptimizedMedia, hv, hs]
  · intro it hget hmedia
    rw [List.get?_eq_getElem?] at hget
    simp [mediaSlideshowVisible, hget, hmedia]

/-- Witness for C7: an asset-less image item, a sourceless file video item,
and a slideshow whose current slide has null media. -/
theorem malformed_media_renders_nothing_witness :
    renderOptimizedMedia noEnv true none blankMedia = RenderResult.nothing ∧
    renderOptimizedMedia noEnv true none fileNoSourceItem = RenderResult.nothing ∧
    mediaSlideshowVisible [blankSlide] 0 = false :=
  ⟨(malformed_media_renders_nothing noEnv true none blankMedia [blankSlide] 0).1 rfl rfl,
   (malformed_media_renders_nothing noEnv true none fileNoSourceItem [blankSlide] 0).2.1 rfl rfl,
   (malformed_media_renders_nothing noEnv true none blankMedia [blankSlide] 0).2.2 blankSlide rfl rfl⟩

/-- Claim C8: from the closed state, openOverlay yields the open state with the
given project and start index and sets the overlay slide index to that start
index; from any open state, closeOverlay yields the closed state. -/
theorem overlay_open_close (st : ProjectsPageState) (pid : String) (si : Nat)
    (title : String) (total : Nat) (hclosed : st.overlay = none) :
    (openOverlay st pid si title total).overlay =
      some { projectId := pid, startIndex := si, projectTitle := title,
             totalSlides := total } ∧
    (openOverlay st pid si title total).overlaySlideIndex = si ∧
    ∀ st2 : ProjectsPageState, st2.overlay.isSome = true →
      (closeOverlay st2).overlay = none :=
  ⟨rfl, rfl, fun _ _ => rfl⟩

/-- Witness for C8 from a concrete closed state and a concrete open state. -/
theorem overlay_open_close_witness :
    (openOverlay sampleClosedState "p1" 2 "T" 5).overlay =
      some { projectId := "p1", startIndex := 2, projectTitle := "T",
             totalSlides := 5 } ∧
    (openOverlay sampleClosedState "p1" 2 "T" 5).overlaySlideIndex = 2 ∧
    (closeOverlay sampleOpenState).overlay = none :=
  ⟨(overlay_open_close sampleClosedState "p1" 2 "T" 5 rfl).1,
   (overlay_open_close sampleClosedState "p1" 2 "T" 5 rfl).2.1,
   (overlay_open_close sampleClosedState "p1" 2 "T" 5 rfl).2.2 sampleOpenState rfl⟩

/-- Claim C9: the circular stepping only ever runs with a positive modulus:
the homepage mounts the slideshow only for a non-empty items list, and the
overlay slideshow is rendered only when the overlay media list is non-empty;
in both cases the stepped index stays within 0..n-1. -/
theorem step_modulus_positive :
    (∀ items rendered, homeRender items = some rendered →
      rendered = items ∧ 1 ≤ (items.length : Int) ∧
      ∀ i : Int, 0 ≤ i →
        (0 ≤ goNext (items.length : Int) i ∧
          goNext (items.length : Int) i < (items.length : Int)) ∧
        (0 ≤ goPrev (items.length : Int) i ∧
          goPrev (items.length : Int) i < (items.length : Int))) ∧
    (∀ overlay oitems, overlayControlsRendered overlay oitems = true →
      1 ≤ (oitems.length : Int) ∧
      ∀ i : Int, 0 ≤ i →
        (0 ≤ goNext (oitems.length : Int) i ∧
          goNext (oitems.length : Int) i < (oitems.length : Int)) ∧
        (0 ≤ goPrev (oitems.length : Int) i ∧
          goPrev (oitems.length : Int) i < (oitems.length : Int))) := by
  constructor
  · intro items rendered h
    unfold homeRender at h
    by_cases hlen : items.length > 0
    · rw [if_pos hlen] at h
      have hn : 1 ≤ (items.length : Int) := by exact_mod_cast hlen
      exact ⟨(Option.some_inj.mp h).symm, hn, fun i hi =>
        ⟨goNext_bounds _ i hn hi, goPrev_bounds _ i hn hi⟩⟩
    · rw [if_neg hlen] at h
      exact absurd h (by simp)
  · intro overlay oitems h
    unfold overlayControlsRendered at h
    have hlen : oitems.length > 0 := by
      rcases Bool.and_eq_true_iff.mp h with ⟨_, h2⟩
      exact of_decide_eq_true h2
    have hn : 1 ≤ (oitems.length : Int) := by exact_mod_cast hlen
    exact ⟨hn, fun i hi => ⟨goNext_bounds _ i hn hi, goPrev_bounds _ i hn hi⟩⟩

/-- Witness for C9: a one-item homepage list and a one-slide overlay list. -/
theorem step_modulus_positive_witness :
    (0 ≤ goNext (([blankHomeItem] : List HomepageSlideshowItem).length : Int) 0 ∧
      goNext (([blankHomeItem] : List HomepageSlideshowItem).length : Int) 0 <
        (([blankHomeItem] : List HomepageSlideshowItem).length : Int)) ∧
    (0 ≤ goPrev (([blankSlide] : List MediaSlideshowItem).length : Int) 0 ∧
      goPrev (([blankSlide] : List MediaSlideshowItem).length : Int) 0 <
        (([blankSlide] : List MediaSlideshowItem).length : Int)) :=
  ⟨((step_modulus_positive.1 [blankHomeItem] [blankHomeItem] rfl).2.2 0 le_rfl).1,
   ((step_modulus_positive.2 (some sampleOverlayInfo) [blankSlide] rfl).2 0 le_rfl).2⟩

/-- Claim C10: toggling a cell flips exactly that index's membership, leaves
every other index unchanged, and toggling twice restores the original set. -/
theorem toggleCell_flips_only_target (s : Finset Nat) (i : Nat) :
    (i ∈ toggleCell s i ↔ i ∉ s) ∧
    (∀ j, j ≠ i → (j ∈ toggleCell s i ↔ j ∈ s)) ∧
    toggleCell (toggleCell s i) i = s := by
  by_cases h : i ∈ s
  · refine ⟨?_, ?_, ?_⟩
    · simp [toggleCell, h]
    · intro j hj
      simp [toggleCell, h, Finset.mem_erase, hj]
    · have hni : i ∉ s.erase i := Finset.not_mem_erase i s
      simp [toggleCell, h, hni, Finset.insert_erase h]
  · refine ⟨?_, ?_, ?_⟩
    · simp [toggleCell, h]
    · intro j hj
      simp [toggleCell, h, Finset.mem_insert, hj]
    · have hii : i ∈ insert i s := Finset.mem_insert_self i s
      simp [toggleCell, h, hii, Finset.erase_insert h]

/-- Witness for C10 on the set containing 0 and 2, toggling index 0 and
checking the untouched index 1. -/
theorem toggleCell_flips_only_target_witness :
    (0 ∈ toggleCell ({0, 2} : Finset Nat) 0 ↔ 0 ∉ ({0, 2} : Finset Nat)) ∧
    (1 ∈ toggleCell ({0, 2} : Finset Nat) 0 ↔ 1 ∈ ({0, 2} : Finset Nat)) ∧
    toggleCell (toggleCell ({0, 2} : Finset Nat) 0) 0 = ({0, 2} : Finset Nat) :=
  ⟨(toggleCell_flips_only_target {0, 2} 0).1,
   (toggleCell_flips_only_target {0, 2} 0).2.1 1 (by decide),
   (toggleCell_flips_only_target {0, 2} 0).2.2⟩

end Site
